import Mathlib

/-!
Verification of the Session State Store + Stage Pipeline subsystem of the
travel-planner repository, as a shallow embedding in Lean 4.

The embedding follows two source files:
* `src/utils/chat_history.py` — class `SQLCache`: a session-partitioned
  key/value cache backed by SQLite, with optional TTL expiry.  The two SQL
  tables (`cache` and `org_data`) are modelled as two partial maps from
  `(key, session_id)` to stored entries.  JSON serialization
  (`json.dumps` / `json.loads`) is modelled as the identity on the opaque
  payload type, and `time.time()` is passed explicitly as a `Nat` clock.
* `src/graph_workflow.py` and `src/main.py` — the LangGraph pipeline
  (`TravelPlannerGraph`) and the service wrapper
  (`TravelPlannerService.process_request`).  Each stage's call to the
  external generation collaborator is modelled by an explicit reply value;
  `none` at the workflow level models the collaborator call raising
  (e.g. the service being unavailable).  Python's dynamic JSON payloads
  are modelled by the inductive `PyVal`.
-/

/-- Dynamic JSON-like payload values (`Dict[str, Any]` contents) carried in
`trip_preferences`, `itinerary_toc` and `itinerary`. -/
inductive PyVal where
  | null : PyVal
  | pybool : Bool → PyVal
  | pyint : Int → PyVal
  | pystr : String → PyVal
  | pylist : List PyVal → PyVal
  | pydict : List (String × PyVal) → PyVal

/-- A Python `Dict[str, Any]` as an ordered association list. -/
abbrev PyDict := List (String × PyVal)

/-- The `TravelPlannerState` TypedDict of `src/graph_workflow.py` lines 11-23. -/
structure TravelPlannerState where
  user_input : String
  session_id : String
  clarification_needed : Bool
  clarification_questions : List String
  trip_preferences : PyDict
  itinerary_toc : PyDict
  success_criteria : List String
  data_quality_requirements : List String
  itinerary : PyDict
  final_response : String
  conversation_history : List String

/-- Character-list prefix test (`a` is a prefix of `b`), used for substring
search on the collaborator's raw reply text. -/
def matchesAt : List Char → List Char → Bool
  | [], _ => true
  | _ :: _, [] => false
  | a :: as, b :: bs => a == b && matchesAt as bs

/-- Character-list substring test: does `needle` occur contiguously in the
second list (Python's `kw in text`)? -/
def containsSeq (needle : List Char) : List Char → Bool
  | [] => matchesAt needle []
  | b :: bs => matchesAt needle (b :: bs) || containsSeq needle bs

/-- The JSON-parse-failure fallback test of `_clarifying_agent`
(`src/graph_workflow.py` line 139): `any(keyword in response.text.lower()
for keyword in ["need", "missing", "clarify", "more information"])`. -/
def clarifyFallbackKeyword (text : String) : Bool :=
  ["need", "missing", "clarify", "more information"].any
    (fun kw => containsSeq kw.data text.toLower.data)

/-- The generation collaborator's reply to the Clarify stage, as consumed by
`_clarifying_agent`.  `parsed` models `json.loads` succeeding: the fields
model `result.get("clarification_needed")` (truthiness collapsed to `Bool`),
`result.get("questions", ...)`, `result.get("preferences", ...)` and
`result.get("message", ...)` with `none` for an absent key.  `unparsed`
models `json.JSONDecodeError` being raised, carrying the raw text. -/
inductive ClarifyReply where
  | parsed : Bool → Option (List String) → Option PyDict → Option String → ClarifyReply
  | unparsed : String → ClarifyReply

/-- The collaborator's reply to the root (Validate) stage:
`validated_preferences`, `success_criteria`, `data_quality_requirements`
when `json.loads` succeeds, or the raw text on parse failure. -/
inductive RootReply where
  | parsed : Option PyDict → Option (List String) → Option (List String) → RootReply
  | unparsed : String → RootReply

/-- The collaborator's reply to the itinerary (Produce) stage: the parsed
itinerary object, or the raw text on parse failure. -/
inductive ItinReply where
  | parsed : PyDict → ItinReply
  | unparsed : String → ItinReply

/-- `TravelPlannerGraph._clarifying_agent` (`src/graph_workflow.py` lines
79-148), given the collaborator's reply.  On parse success it branches on
`clarification_needed`; on parse failure it applies the keyword fallback.
Note that the `clarification_needed = false` branches do not clear
`clarification_questions`, and the final statement appends the user's
message (not an agent summary) to `conversation_history`. -/
def clarifying_agent (reply : ClarifyReply) (state : TravelPlannerState) :
    TravelPlannerState :=
  let state1 :=
    match reply with
    | ClarifyReply.parsed cn questions preferences message =>
      if cn then
        { state with clarification_needed := true,
                     clarification_questions := questions.getD [],
                     final_response :=
                       message.getD "I need more information to plan your trip." }
      else
        { state with clarification_needed := false,
                     trip_preferences := preferences.getD [],
                     final_response := message.getD "Ready to plan your trip!" }
    | ClarifyReply.unparsed text =>
      if clarifyFallbackKeyword text then
        { state with clarification_needed := true,
                     clarification_questions :=
                       ["Could you provide more details about your destination and travel dates?"],
                     final_response :=
                       "I need a bit more information to plan your perfect trip." }
      else
        { state with clarification_needed := false, trip_preferences := [] }
  { state1 with conversation_history :=
      state1.conversation_history ++ ["User: " ++ state1.user_input] }

/-- `TravelPlannerGraph._root_agent` (`src/graph_workflow.py` lines 153-216).
On parse success, `validated_preferences` defaults to the prior preferences
(`toc_result.get("validated_preferences", preferences)`); on parse failure
the state is left as is.  Always appends one history entry. -/
def root_agent (reply : RootReply) (state : TravelPlannerState) :
    TravelPlannerState :=
  let preferences := state.trip_preferences
  let state1 :=
    match reply with
    | RootReply.parsed vp sc dq =>
      { state with trip_preferences := vp.getD preferences,
                   success_criteria := sc.getD [],
                   data_quality_requirements := dq.getD [] }
    | RootReply.unparsed _ => state
  { state1 with conversation_history :=
      state1.conversation_history ++ ["Root Agent: Trip preferences validated"] }

/-- `TravelPlannerGraph._itinerary_agent` (`src/graph_workflow.py` lines
218-299).  On parse failure it substitutes `_create_fallback_itinerary`,
passed here as the function `fb` (its body builds a fixed-shape dictionary
from the preferences using Python float arithmetic for the budget breakdown,
which is abstracted as this opaque function; no claim depends on its
output).  Always appends one history entry. -/
def itinerary_agent (reply : ItinReply) (fb : PyDict → PyDict)
    (state : TravelPlannerState) : TravelPlannerState :=
  let preferences := state.trip_preferences
  let state1 :=
    match reply with
    | ItinReply.parsed itin => { state with itinerary := itin }
    | ItinReply.unparsed _ => { state with itinerary := fb preferences }
  { state1 with conversation_history :=
      state1.conversation_history ++ ["Itinerary Agent: Detailed itinerary created"] }

/-- `TravelPlannerGraph._response_agent` (`src/graph_workflow.py` lines
301-334), given the collaborator's raw output text.  It assigns
`final_response = response.text` directly — there is no parse step and no
fallback — and appends one history entry. -/
def response_agent (text : String) (state : TravelPlannerState) :
    TravelPlannerState :=
  { state with final_response := text,
               conversation_history :=
                 state.conversation_history ++ ["Response Agent: Final response prepared"] }

/-- Outcome of one `workflow.invoke` call.  `failed` models an exception
escaping the graph (a collaborator call raising); it carries the
`conversation_history` list as mutated so far, because that list object is
shared by reference with the caller's stored session state (the nodes append
to it in place through the framework's channel references). -/
inductive TurnOutcome where
  | ok : TravelPlannerState → TurnOutcome
  | failed : List String → TurnOutcome

/-- The `_should_clarify` router of `src/graph_workflow.py` lines 150-151. -/
def should_clarify (state : TravelPlannerState) : String :=
  if state.clarification_needed then "clarify" else "continue"

/-- The graph after the Clarify node (`_build_workflow`,
`src/graph_workflow.py` lines 53-77): the conditional edge ends the turn on
`"clarify"`, otherwise runs root → itinerary → response.  A `none` reply
models the collaborator call of that node raising `Unavailable`. -/
def workflow_after_clarify (r2 : Option RootReply) (r3 : Option ItinReply)
    (r4 : Option String) (fb : PyDict → PyDict)
    (s1 : TravelPlannerState) : TurnOutcome :=
  if s1.clarification_needed then TurnOutcome.ok s1
  else
    match r2 with
    | none => TurnOutcome.failed s1.conversation_history
    | some rep2 =>
      let s2 := root_agent rep2 s1
      match r3 with
      | none => TurnOutcome.failed s2.conversation_history
      | some rep3 =>
        let s3 := itinerary_agent rep3 fb s2
        match r4 with
        | none => TurnOutcome.failed s3.conversation_history
        | some text => TurnOutcome.ok (response_agent text s3)

/-- `self.graph.workflow.invoke(initial_state)`: the entry point is the
Clarify node; a `none` first reply models the very first collaborator call
raising before any node mutates the state. -/
def workflow_invoke (r1 : Option ClarifyReply) (r2 : Option RootReply)
    (r3 : Option ItinReply) (r4 : Option String) (fb : PyDict → PyDict)
    (s : TravelPlannerState) : TurnOutcome :=
  match r1 with
  | none => TurnOutcome.failed s.conversation_history
  | some rep1 => workflow_after_clarify r2 r3 r4 fb (clarifying_agent rep1 s)

/-- The fresh state built by `process_request` for an unknown session
(`src/main.py` lines 47-60). -/
def fresh_state (user_input session_id : String) : TravelPlannerState :=
  { user_input := user_input
    session_id := session_id
    clarification_needed := false
    clarification_questions := []
    trip_preferences := []
    itinerary_toc := []
    success_criteria := []
    data_quality_requirements := []
    itinerary := []
    final_response := ""
    conversation_history := ["User: " ++ user_input] }

/-- The initial state assembled by `process_request` (`src/main.py` lines
33-60): a copy of `previous_state` if supplied, else a copy of the stored
session state, else a fresh state; in the first two cases `user_input` is
rebound and the user's message is appended to `conversation_history`. -/
def initial_state_for (sessions : String → Option TravelPlannerState)
    (previous_state : Option TravelPlannerState)
    (user_input session_id : String) : TravelPlannerState :=
  match previous_state with
  | some prev =>
    { prev with user_input := user_input,
                conversation_history :=
                  prev.conversation_history ++ ["User: " ++ user_input] }
  | none =>
    match sessions session_id with
    | some prev =>
      { prev with user_input := user_input,
                  conversation_history :=
                    prev.conversation_history ++ ["User: " ++ user_input] }
    | none => fresh_state user_input session_id

/-- Effect on the stored session map of assembling the initial state.
`initial_state = self.session_states[session_id].copy()` is a shallow
`dict.copy()`: the `conversation_history` value is the same list object in
the copy and in the stored dict, so
`initial_state["conversation_history"].append(...)` (line 45 of
`src/main.py`) is visible in the stored state at once.  Rebinding
`initial_state["user_input"]` affects only the copy.  When
`previous_state` is supplied the mutated list belongs to the caller's
dict, not to `session_states`. -/
def sessions_after_load (sessions : String → Option TravelPlannerState)
    (previous_state : Option TravelPlannerState)
    (user_input session_id : String) : String → Option TravelPlannerState :=
  match previous_state with
  | some _ => sessions
  | none =>
    match sessions session_id with
    | some prev =>
      fun sid =>
        if sid = session_id then
          some { prev with conversation_history :=
                   prev.conversation_history ++ ["User: " ++ user_input] }
        else sessions sid
    | none => sessions

/-- Result of `TravelPlannerService.process_request`: the workflow's result
state, or the `{"error": str(e), "status": "failed"}` dictionary built by
the `except Exception` handler. -/
inductive ProcessResult where
  | ok : TravelPlannerState → ProcessResult
  | error : ProcessResult

/-- Maps a workflow outcome to what `process_request` returns. -/
def turn_to_result : TurnOutcome → ProcessResult
  | TurnOutcome.ok r => ProcessResult.ok r
  | TurnOutcome.failed _ => ProcessResult.error

/-- `TravelPlannerService.process_request` (`src/main.py` lines 28-71),
returning the result and the new `self.session_states` map.  On success the
result is stored under the session id (line 63).  On an exception the store
is not assigned — but for a pre-existing session the stored state's
`conversation_history` is the very list the turn was mutating (shallow
`dict.copy()`), so it holds whatever was appended before the raise. -/
def process_request (r1 : Option ClarifyReply) (r2 : Option RootReply)
    (r3 : Option ItinReply) (r4 : Option String) (fb : PyDict → PyDict)
    (sessions : String → Option TravelPlannerState)
    (previous_state : Option TravelPlannerState)
    (user_input session_id : String) :
    ProcessResult × (String → Option TravelPlannerState) :=
  let initial := initial_state_for sessions previous_state user_input session_id
  let sessions1 := sessions_after_load sessions previous_state user_input session_id
  match workflow_invoke r1 r2 r3 r4 fb initial with
  | TurnOutcome.ok result =>
    (ProcessResult.ok result,
     fun sid => if sid = session_id then some result else sessions1 sid)
  | TurnOutcome.failed hist =>
    (ProcessResult.error,
     match previous_state with
     | some _ => sessions1
     | none =>
       match sessions session_id with
       | some prev =>
         fun sid =>
           if sid = session_id then
             some { prev with conversation_history := hist }
           else sessions sid
       | none => sessions)

/-- `TravelPlannerService.get_session_state` (`src/main.py` lines 73-75):
`self.session_states.get(session_id, {})`, with the empty-dict default
rendered as `none`. -/
def get_session_state (sessions : String → Option TravelPlannerState)
    (session_id : String) : Option TravelPlannerState :=
  sessions session_id

/-- Tagging of history entries, following the spec's vocabulary: the spec
says each history entry is "tagged `human` or `agent`"; in the code the tag
is encoded in the string itself — entries created from the user's input are
prefixed `"User: "` (`src/main.py` lines 39, 45, 59 and
`src/graph_workflow.py` line 147), all other appended entries are the
agents' stage summaries. -/
def specHistoryTag (entry : String) : String :=
  if matchesAt "User: ".data entry.data then "human" else "agent"

/-- A stored row of the `SQLCache` tables (`src/utils/chat_history.py`):
columns `value` (the JSON payload, modelled as the opaque `α`) and
`expires_at` (`REAL`, nullable, modelled as `Option Nat`). -/
structure CacheEntry (α : Type) where
  value : α
  expires_at : Option Nat

/-- The `SQLCache` store (`src/utils/chat_history.py` lines 123-305): the
two SQLite tables `cache` (`self.table_name`) and `org_data`
(`self.org_table_name`), each keyed by the primary key
`(key, session_id)`. -/
structure SQLCache (α : Type) where
  cache : String × String → Option (CacheEntry α)
  org_data : String × String → Option (CacheEntry α)

/-- Python's `expires_at = time.time() + ttl if ttl else None`
(`src/utils/chat_history.py` line 178): `ttl` is truthy only when it is
given and non-zero. -/
def pyTtlExpiry (now : Nat) (ttl : Option Nat) : Option Nat :=
  match ttl with
  | some t => if t != 0 then some (now + t) else none
  | none => none

/-- `SQLCache.set` (`src/utils/chat_history.py` lines 169-187):
`INSERT OR REPLACE` into the `cache` table at primary key
`(key, session_id)`; `json.dumps` is the identity on the opaque payload. -/
def SQLCache.set (s : SQLCache α) (key : String) (value : α)
    (session_id : String) (ttl : Option Nat) (now : Nat) : SQLCache α :=
  { s with cache := fun p =>
      if p = (key, session_id) then
        some { value := value, expires_at := pyTtlExpiry now ttl }
      else s.cache p }

/-- `SQLCache.delete` (`src/utils/chat_history.py` lines 264-275): deletes
from the `cache` table only. -/
def SQLCache.delete (s : SQLCache α) (key session_id : String) : SQLCache α :=
  { s with cache := fun p =>
      if p = (key, session_id) then none else s.cache p }

/-- `SQLCache.get` (`src/utils/chat_history.py` lines 189-215): looks up
`(key, session_id)` in the `cache` table; on a missing row returns the
default (`none` here); if `expires_at is not None and time.time() >
expires_at` it calls `self.delete` and returns the default; otherwise it
returns the deserialized value.  Returns the value and the store after the
possible lazy deletion. -/
def SQLCache.get (s : SQLCache α) (key session_id : String) (now : Nat) :
    Option α × SQLCache α :=
  match s.cache (key, session_id) with
  | none => (none, s)
  | some entry =>
    match entry.expires_at with
    | some e => if now > e then (none, s.delete key session_id)
                else (some entry.value, s)
    | none => (some entry.value, s)

/-- `SQLCache.set_org_data` (`src/utils/chat_history.py` lines 218-236):
same as `set` but targeting the `org_data` table. -/
def SQLCache.set_org_data (s : SQLCache α) (key : String) (value : α)
    (session_id : String) (ttl : Option Nat) (now : Nat) : SQLCache α :=
  { s with org_data := fun p =>
      if p = (key, session_id) then
        some { value := value, expires_at := pyTtlExpiry now ttl }
      else s.org_data p }

/-- `SQLCache.get_org_data` (`src/utils/chat_history.py` lines 238-262):
reads from the `org_data` table; on an expired row it calls `self.delete`,
which (faithfully to the code) deletes from the `cache` table, not from
`org_data`. -/
def SQLCache.get_org_data (s : SQLCache α) (key session_id : String)
    (now : Nat) : Option α × SQLCache α :=
  match s.org_data (key, session_id) with
  | none => (none, s)
  | some entry =>
    match entry.expires_at with
    | some e => if now > e then (none, s.delete key session_id)
                else (some entry.value, s)
    | none => (some entry.value, s)

/-- `SQLCache.clear_session` (`src/utils/chat_history.py` lines 277-288):
`DELETE FROM cache WHERE session_id = ?` — only the `cache` table is
touched. -/
def SQLCache.clear_session (s : SQLCache α) (session_id : String) :
    SQLCache α :=
  { s with cache := fun p =>
      if p.2 = session_id then none else s.cache p }

/-- `SQLCache.clear_expired` (`src/utils/chat_history.py` lines 290-301):
`DELETE FROM cache WHERE expires_at IS NOT NULL AND expires_at < now` —
only the `cache` table is swept.  The Python method has no `return`
statement, so its return value is `None`: the second component models that
returned value. -/
def SQLCache.clear_expired (s : SQLCache α) (now : Nat) :
    SQLCache α × Option Nat :=
  ({ s with cache := fun p =>
      match s.cache p with
      | some entry =>
        match entry.expires_at with
        | some e => if e < now then none else some entry
        | none => some entry
      | none => none },
   none)

/-- Helper: a `set` writes exactly the new entry at its own key. -/
theorem set_cache_at {α : Type} (s : SQLCache α) (key session_id : String)
    (v : α) (ttl : Option Nat) (t0 : Nat) :
    (s.set key v session_id ttl t0).cache (key, session_id) =
      some { value := v, expires_at := pyTtlExpiry t0 ttl } := by
  simp [SQLCache.set]

/-- Helper: a `get` before the (optional) expiry time returns the value of
the entry written at time `t0` with the given `ttl`. -/
theorem get_of_fresh {α : Type} (s : SQLCache α) (key session_id : String)
    (v : α) (ttl : Option Nat) (t0 t1 : Nat)
    (hc : s.cache (key, session_id) = some { value := v, expires_at := pyTtlExpiry t0 ttl })
    (h : ttl = none ∨ ∃ t, ttl = some t ∧ t1 < t0 + t) :
    (s.get key session_id t1).1 = some v := by
  unfold SQLCache.get
  rw [hc]
  rcases h with h | ⟨t, ht, hlt⟩
  · subst h; simp [pyTtlExpiry]
  · subst ht
    by_cases h0 : t = 0
    · subst h0; simp [pyTtlExpiry]
    · have hnot : ¬ t1 > t0 + t := by omega
      simp [pyTtlExpiry, h0, hnot]

/-- C3: a `set` followed by a `get` on the same `(key, session_id)` with no
ttl, or before the ttl elapses, returns exactly the value written; a second
`set` to the same key fully replaces the prior entry (the stored row is
exactly the new one), so the subsequent `get` returns only the newer
value. -/
theorem store_roundtrip_and_replace {α : Type} (s : SQLCache α)
    (key session_id : String) (v v2 : α) (ttl ttl2 : Option Nat)
    (t0 t1 t2 t3 : Nat)
    (h1 : ttl = none ∨ ∃ t, ttl = some t ∧ t1 < t0 + t)
    (h2 : ttl2 = none ∨ ∃ t, ttl2 = some t ∧ t3 < t2 + t) :
    ((s.set key v session_id ttl t0).get key session_id t1).1 = some v ∧
    ((s.set key v session_id ttl t0).set key v2 session_id ttl2 t2).cache
        (key, session_id) =
      some { value := v2, expires_at := pyTtlExpiry t2 ttl2 } ∧
    (((s.set key v session_id ttl t0).set key v2 session_id ttl2 t2).get
        key session_id t3).1 = some v2 := by
  refine ⟨?_, set_cache_at _ _ _ _ _ _, ?_⟩
  · exact get_of_fresh _ _ _ _ _ _ _ (set_cache_at _ _ _ _ _ _) h1
  · exact get_of_fresh _ _ _ _ _ _ _ (set_cache_at _ _ _ _ _ _) h2

/-- Witness for C3 at a concrete input: an empty store, `set` of `1` with
ttl `10` at time `0`, read back at time `5`; then overwritten by `2` with no
ttl at time `6` and read back at time `7`. -/
theorem store_roundtrip_and_replace_witness :
    (((SQLCache.mk (fun _ => none) (fun _ => none) : SQLCache Nat).set
        "k" 1 "s" (some 10) 0).get "k" "s" 5).1 = some 1 ∧
    ((((SQLCache.mk (fun _ => none) (fun _ => none) : SQLCache Nat).set
        "k" 1 "s" (some 10) 0).set "k" 2 "s" none 6).cache ("k", "s")) =
      some { value := 2, expires_at := pyTtlExpiry 6 none } ∧
    ((((SQLCache.mk (fun _ => none) (fun _ => none) : SQLCache Nat).set
        "k" 1 "s" (some 10) 0).set "k" 2 "s" none 6).get "k" "s" 7).1 = some 2 :=
  store_roundtrip_and_replace _ "k" "s" 1 2 (some 10) none 0 5 6 7
    (Or.inr ⟨10, rfl, by omega⟩) (Or.inl rfl)

/-- C4: lazy expiry.  A `get` on an entry whose `expires_at` is in the past
returns absent and deletes the row, so a second `get` on the resulting store
also returns absent; a `get` on a no-TTL or unexpired entry returns the
value and leaves the store completely unchanged. -/
theorem lazy_expiry_get {α : Type} (s : SQLCache α) (key session_id : String)
    (entry : CacheEntry α) (now : Nat)
    (hin : s.cache (key, session_id) = some entry) :
    (∀ e, entry.expires_at = some e → e < now →
      (s.get key session_id now).1 = none ∧
      ((s.get key session_id now).2).cache (key, session_id) = none ∧
      (((s.get key session_id now).2).get key session_id now).1 = none) ∧
    ((entry.expires_at = none ∨ ∃ e, entry.expires_at = some e ∧ now ≤ e) →
      (s.get key session_id now).1 = some entry.value ∧
      (s.get key session_id now).2 = s) := by
  constructor
  · intro e he hlt
    have hgt : now > e := hlt
    refine ⟨?_, ?_, ?_⟩
    · simp [SQLCache.get, hin, he, hgt]
    · simp [SQLCache.get, hin, he, hgt, SQLCache.delete]
    · simp [SQLCache.get, hin, he, hgt, SQLCache.delete]
  · intro h
    rcases h with h | ⟨e, he, hle⟩
    · simp [SQLCache.get, hin, h]
    · have hngt : ¬ now > e := by omega
      simp [SQLCache.get, hin, he, hngt]

/-- Witness for C4 at concrete inputs: an entry with `expires_at = 5` read
at time `9` (expired: absent twice, row deleted), and an entry with
`expires_at = 20` read at time `9` (unexpired: value returned, store
untouched). -/
theorem lazy_expiry_get_witness :
    ((((SQLCache.mk
          (fun p => if p = ("k", "s") then some { value := 3, expires_at := some 5 } else none)
          (fun _ => none) : SQLCache Nat)).get "k" "s" 9).1 = none ∧
      (((SQLCache.mk
          (fun p => if p = ("k", "s") then some { value := 3, expires_at := some 5 } else none)
          (fun _ => none) : SQLCache Nat).get "k" "s" 9).2.cache ("k", "s") = none) ∧
      ((((SQLCache.mk
          (fun p => if p = ("k", "s") then some { value := 3, expires_at := some 5 } else none)
          (fun _ => none) : SQLCache Nat).get "k" "s" 9).2.get "k" "s" 9).1 = none)) ∧
    (((SQLCache.mk
          (fun p => if p = ("k", "s") then some { value := 4, expires_at := some 20 } else none)
          (fun _ => none) : SQLCache Nat).get "k" "s" 9).1 = some 4 ∧
      ((SQLCache.mk
          (fun p => if p = ("k", "s") then some { value := 4, expires_at := some 20 } else none)
          (fun _ => none) : SQLCache Nat).get "k" "s" 9).2 =
        SQLCache.mk
          (fun p => if p = ("k", "s") then some { value := 4, expires_at := some 20 } else none)
          (fun _ => none)) :=
  ⟨((lazy_expiry_get _ "k" "s" { value := 3, expires_at := some 5 } 9 (by simp)).1
      5 rfl (by omega)),
   ((lazy_expiry_get _ "k" "s" { value := 4, expires_at := some 20 } 9 (by simp)).2
      (Or.inr ⟨20, rfl, by omega⟩))⟩

/-- Concrete store for the C8 counterexample: an `org_data` row for session
`"s1"` and an empty `cache` table. -/
def c8_store : SQLCache Nat :=
  { cache := fun _ => none,
    org_data := fun p =>
      if p = ("k", "s1") then some { value := 7, expires_at := none } else none }

/-- C8 counterexample: after `clear_session "s1"`, `get_org_data` for that
very session still returns the stored value — `clear_session` only deletes
from the `cache` table, so the claim that every namespace (including
`org_data`) is cleared is false. -/
theorem clear_session_leaves_org_data :
    ((c8_store.clear_session "s1").get_org_data "k" "s1" 0).1 = some 7 := by
  rfl

/-- C8 amended: `clear_session` deletes every `cache`-table entry of the
session (a subsequent `get` returns absent), leaves entries of all other
sessions unchanged, and leaves the `org_data` table completely untouched. -/
theorem clear_session_scope {α : Type} (s : SQLCache α)
    (sid key sid2 : String) (now : Nat) :
    ((s.clear_session sid).get key sid now).1 = none ∧
    (s.clear_session sid).org_data = s.org_data ∧
    (sid2 ≠ sid → (s.clear_session sid).cache (key, sid2) = s.cache (key, sid2)) := by
  refine ⟨?_, rfl, ?_⟩
  · simp [SQLCache.clear_session, SQLCache.get]
  · intro h
    simp [SQLCache.clear_session, h]

/-- Witness for C8's amended theorem at concrete inputs. -/
theorem clear_session_scope_witness :
    ((c8_store.clear_session "s1").get "k" "s1" 0).1 = none ∧
    (c8_store.clear_session "s1").org_data = c8_store.org_data ∧
    (c8_store.clear_session "s1").cache ("k", "s2") = c8_store.cache ("k", "s2") :=
  ⟨(clear_session_scope c8_store "s1" "k" "s2" 0).1,
   (clear_session_scope c8_store "s1" "k" "s2" 0).2.1,
   (clear_session_scope c8_store "s1" "k" "s2" 0).2.2 (by decide)⟩

/-- Concrete store for the C9 counterexample: two `cache` rows, both already
expired at time `10`. -/
def c9_store : SQLCache Nat :=
  { cache := fun p =>
      if p = ("a", "s") then some { value := 1, expires_at := some 5 }
      else if p = ("b", "s") then some { value := 2, expires_at := some 6 }
      else none,
    org_data := fun _ => none }

/-- C9 counterexample: at time `10` the sweep does remove the two expired
rows, yet the call returns `none` (the Python method has no `return`
statement), not the number of entries it removed — refuting the claim that
`clear_expired` returns that count. -/
theorem clear_expired_returns_no_count :
    (c9_store.clear_expired 10).2 = none ∧
    (c9_store.clear_expired 10).1.cache ("a", "s") = none ∧
    (c9_store.clear_expired 10).1.cache ("b", "s") = none ∧
    c9_store.cache ("a", "s") = some { value := 1, expires_at := some 5 } := by
  exact ⟨rfl, rfl, rfl, rfl⟩

/-- C9 amended: `clear_expired` deletes from the `cache` table every entry
whose `expires_at` is set and strictly earlier than the call time, leaves
no-TTL and unexpired entries untouched, leaves the `org_data` table
untouched, and returns no count (the method returns `None`). -/
theorem clear_expired_scope {α : Type} (s : SQLCache α) (now : Nat)
    (key sid : String) (entry : CacheEntry α)
    (hin : s.cache (key, sid) = some entry) :
    (∀ e, entry.expires_at = some e → e < now →
      (s.clear_expired now).1.cache (key, sid) = none) ∧
    (entry.expires_at = none →
      (s.clear_expired now).1.cache (key, sid) = some entry) ∧
    (∀ e, entry.expires_at = some e → now ≤ e →
      (s.clear_expired now).1.cache (key, sid) = some entry) ∧
    (s.clear_expired now).1.org_data = s.org_data ∧
    (s.clear_expired now).2 = none := by
  refine ⟨?_, ?_, ?_, rfl, rfl⟩
  · intro e he hlt
    simp [SQLCache.clear_expired, hin, he, hlt]
  · intro he
    simp [SQLCache.clear_expired, hin, he]
  · intro e he hle
    have hnlt : ¬ e < now := by omega
    simp [SQLCache.clear_expired, hin, he, hnlt]

/-- Witness for C9's amended theorem at a concrete input: the expired row
`("a", "s")` of `c9_store` is removed at time `10`, `org_data` is untouched
and the returned value is `none`. -/
theorem clear_expired_scope_witness :
    (c9_store.clear_expired 10).1.cache ("a", "s") = none ∧
    (c9_store.clear_expired 10).1.org_data = c9_store.org_data ∧
    (c9_store.clear_expired 10).2 = none :=
  ⟨(clear_expired_scope c9_store 10 "a" "s" { value := 1, expires_at := some 5 }
      (by simp [c9_store])).1 5 rfl (by omega),
   (clear_expired_scope c9_store 10 "a" "s" { value := 1, expires_at := some 5 }
      (by simp [c9_store])).2.2.2.1,
   (clear_expired_scope c9_store 10 "a" "s" { value := 1, expires_at := some 5 }
      (by simp [c9_store])).2.2.2.2⟩

/-- C10: `set` with `ttl = 0` stores an entry with no expiration at all —
Python's `time.time() + ttl if ttl else None` treats `0` as falsy — so it
is literally the same store as `set` with `ttl` omitted, and every later
`get` (at any time) returns the value. -/
theorem zero_ttl_never_expires {α : Type} (s : SQLCache α)
    (key session_id : String) (v : α) (t0 t1 : Nat) :
    s.set key v session_id (some 0) t0 = s.set key v session_id none t0 ∧
    ((s.set key v session_id (some 0) t0).get key session_id t1).1 = some v := by
  constructor
  · rfl
  · simp [SQLCache.set, SQLCache.get, pyTtlExpiry]

/-- Helper: the root agent never changes the clarification flag or the
pending questions. -/
theorem root_agent_keeps_clarification (r : RootReply) (s : TravelPlannerState) :
    (root_agent r s).clarification_needed = s.clarification_needed ∧
    (root_agent r s).clarification_questions = s.clarification_questions := by
  cases r <;> simp [root_agent]

/-- Helper: the itinerary agent never changes the clarification flag or the
pending questions. -/
theorem itinerary_agent_keeps_clarification (r : ItinReply)
    (fb : PyDict → PyDict) (s : TravelPlannerState) :
    (itinerary_agent r fb s).clarification_needed = s.clarification_needed ∧
    (itinerary_agent r fb s).clarification_questions = s.clarification_questions := by
  cases r <;> simp [itinerary_agent]

/-- Helper: the response agent never changes the clarification flag or the
pending questions. -/
theorem response_agent_keeps_clarification (text : String)
    (s : TravelPlannerState) :
    (response_agent text s).clarification_needed = s.clarification_needed ∧
    (response_agent text s).clarification_questions = s.clarification_questions := by
  simp [response_agent]

/-- Concrete entering state for the C6 counterexample. -/
def c6_state : TravelPlannerState := fresh_state "hi" "s1"

/-- C6 counterexample: the Clarify stage appends exactly one entry, but that
entry is the user's own message `"User: hi"`, tagged `human` under the
spec's tagging — not an agent-tagged stage summary, refuting the claim that
every executing stage's appended entry comes from the agent. -/
theorem clarify_appends_user_tagged_entry :
    (clarifying_agent (ClarifyReply.parsed false none none none)
        c6_state).conversation_history =
      c6_state.conversation_history ++ ["User: hi"] ∧
    specHistoryTag "User: hi" = "human" := by
  exact ⟨rfl, rfl⟩

/-- C6 amended: every stage appends exactly one entry to
`conversation_history` (in every reply branch) before control passes on; the
Validate/Produce/Respond entries are fixed agent-tagged stage summaries,
while the Clarify stage's entry is the user's message `"User: <input>"`. -/
theorem stage_history_discipline (r1 : ClarifyReply) (r2 : RootReply)
    (r3 : ItinReply) (text : String) (fb : PyDict → PyDict)
    (sa sb sc2 sd : TravelPlannerState) :
    (clarifying_agent r1 sa).conversation_history =
      sa.conversation_history ++ ["User: " ++ sa.user_input] ∧
    (root_agent r2 sb).conversation_history =
      sb.conversation_history ++ ["Root Agent: Trip preferences validated"] ∧
    (itinerary_agent r3 fb sc2).conversation_history =
      sc2.conversation_history ++ ["Itinerary Agent: Detailed itinerary created"] ∧
    (response_agent text sd).conversation_history =
      sd.conversation_history ++ ["Response Agent: Final response prepared"] ∧
    specHistoryTag "Root Agent: Trip preferences validated" = "agent" ∧
    specHistoryTag "Itinerary Agent: Detailed itinerary created" = "agent" ∧
    specHistoryTag "Response Agent: Final response prepared" = "agent" := by
  refine ⟨?_, ?_, ?_, rfl, rfl, rfl, rfl⟩
  · cases r1 with
    | parsed cn qs p m => cases cn <;> simp [clarifying_agent]
    | unparsed t =>
      cases hk : clarifyFallbackKeyword t <;> simp [clarifying_agent, hk]
  · cases r2 <;> simp [root_agent]
  · cases r3 <;> simp [itinerary_agent]

/-- Concrete entering state for the C7 counterexample, already past the
clarification branch. -/
def c7_state : TravelPlannerState := fresh_state "plan a trip" "s1"

/-- C7 counterexample: with the collaborator returning the empty string, the
Respond stage produces an empty `final_response` (no templated fallback is
ever built); and when the Respond stage's collaborator call raises, the
whole turn fails instead of falling back — refuting Respond totality. -/
theorem respond_not_total :
    (response_agent "" c7_state).final_response = "" ∧
    workflow_invoke (some (ClarifyReply.parsed false none none none))
        (some (RootReply.unparsed "x")) (some (ItinReply.unparsed "x")) none
        (fun _ => []) c7_state =
      TurnOutcome.failed
        ((itinerary_agent (ItinReply.unparsed "x") (fun _ => [])
            (root_agent (RootReply.unparsed "x")
              (clarifying_agent (ClarifyReply.parsed false none none none)
                c7_state))).conversation_history) := by
  exact ⟨rfl, rfl⟩

/-- C7 amended: the Respond stage sets `final_response` to exactly the
collaborator's output text (so an empty output yields an empty response, and
there is no fallback summary); and on any turn that reaches Respond, a
failure of the Respond collaborator call makes the whole turn fail. -/
theorem respond_passes_text_through (text : String) (s : TravelPlannerState)
    (r1 : ClarifyReply) (r2 : RootReply) (r3 : ItinReply)
    (fb : PyDict → PyDict) (s' : TravelPlannerState)
    (hclar : (clarifying_agent r1 s').clarification_needed = false) :
    (response_agent text s).final_response = text ∧
    workflow_invoke (some r1) (some r2) (some r3) none fb s' =
      TurnOutcome.failed
        ((itinerary_agent r3 fb
            (root_agent r2 (clarifying_agent r1 s'))).conversation_history) := by
  constructor
  · rfl
  · simp [workflow_invoke, workflow_after_clarify, hclar]

/-- Witness for C7's amended theorem at concrete inputs. -/
theorem respond_passes_text_through_witness :
    (response_agent "Enjoy!" c7_state).final_response = "Enjoy!" ∧
    workflow_invoke (some (ClarifyReply.parsed false none none none))
        (some (RootReply.unparsed "x")) (some (ItinReply.unparsed "x")) none
        (fun _ => []) c7_state =
      TurnOutcome.failed
        ((itinerary_agent (ItinReply.unparsed "x") (fun _ => [])
            (root_agent (RootReply.unparsed "x")
              (clarifying_agent (ClarifyReply.parsed false none none none)
                c7_state))).conversation_history) :=
  respond_passes_text_through "Enjoy!" c7_state
    (ClarifyReply.parsed false none none none) (RootReply.unparsed "x")
    (ItinReply.unparsed "x") (fun _ => []) c7_state rfl

/-- Concrete entering state for the C5 counterexample: the previous turn
left `clarification_questions = ["Q1"]` with `clarification_needed = true`
(exactly the persisted suspension state). -/
def c5_state : TravelPlannerState :=
  { fresh_state "Tokyo, Oct 10-17" "s1" with
      clarification_needed := true,
      clarification_questions := ["Q1"] }

/-- C5 counterexample: a resumed turn whose collaborator reply parses with
`clarification_needed = false` reaches the terminal with
`clarification_needed = false` but the stale `clarification_questions =
["Q1"]` still present — `pendingQuestions` non-empty while
`needsClarification` is false, refuting the claimed invariant. -/
theorem stale_questions_after_turn :
    workflow_invoke (some (ClarifyReply.parsed false none none none))
        (some (RootReply.unparsed "x")) (some (ItinReply.unparsed "x"))
        (some "done") (fun _ => []) c5_state =
      TurnOutcome.ok
        (response_agent "done"
          (itinerary_agent (ItinReply.unparsed "x") (fun _ => [])
            (root_agent (RootReply.unparsed "x")
              (clarifying_agent (ClarifyReply.parsed false none none none)
                c5_state)))) ∧
    (response_agent "done"
        (itinerary_agent (ItinReply.unparsed "x") (fun _ => [])
          (root_agent (RootReply.unparsed "x")
            (clarifying_agent (ClarifyReply.parsed false none none none)
              c5_state)))).clarification_needed = false ∧
    (response_agent "done"
        (itinerary_agent (ItinReply.unparsed "x") (fun _ => [])
          (root_agent (RootReply.unparsed "x")
            (clarifying_agent (ClarifyReply.parsed false none none none)
              c5_state)))).clarification_questions = ["Q1"] := by
  exact ⟨rfl, rfl, rfl⟩

/-- C5 amended: for turns entering with no pending questions, and whose
collaborator reply carries at least one question whenever it requests
clarification (the parse-failure fallback always supplies one), every state
returned by the pipeline satisfies: `clarification_questions` is non-empty
iff `clarification_needed` is true.  Without those two conditions the
invariant fails: a turn deciding `clarification_needed = false` leaves the
entering questions unchanged rather than clearing them, and a parsed reply
requesting clarification with no questions yields the flag set with an
empty list. -/
theorem clarification_invariant_conditional (r1 : ClarifyReply)
    (r2 : Option RootReply) (r3 : Option ItinReply) (r4 : Option String)
    (fb : PyDict → PyDict) (s fs : TravelPlannerState)
    (hempty : s.clarification_questions = [])
    (hq : ∀ cn qs prefs msg, r1 = ClarifyReply.parsed cn qs prefs msg →
            cn = true → qs.getD [] ≠ [])
    (hok : workflow_invoke (some r1) r2 r3 r4 fb s = TurnOutcome.ok fs) :
    (fs.clarification_needed = true ↔ fs.clarification_questions ≠ []) := by
  have hs1 : ((clarifying_agent r1 s).clarification_needed = true ∧
              (clarifying_agent r1 s).clarification_questions ≠ []) ∨
             ((clarifying_agent r1 s).clarification_needed = false ∧
              (clarifying_agent r1 s).clarification_questions = []) := by
    cases r1 with
    | parsed cn qs prefs msg =>
      cases cn with
      | true =>
        left
        constructor
        · simp [clarifying_agent]
        · simpa [clarifying_agent] using hq true qs prefs msg rfl rfl
      | false =>
        right
        constructor <;> simp [clarifying_agent, hempty]
    | unparsed text =>
      cases hk : clarifyFallbackKeyword text with
      | true =>
        left
        constructor <;> simp [clarifying_agent, hk]
      | false =>
        right
        constructor <;> simp [clarifying_agent, hk, hempty]
  simp only [workflow_invoke] at hok
  rcases hs1 with ⟨hcn, hqne⟩ | ⟨hcn, hqe⟩
  · simp only [workflow_after_clarify, hcn, if_true] at hok
    cases hok
    exact ⟨fun _ => hqne, fun _ => hcn⟩
  · simp only [workflow_after_clarify, hcn, Bool.false_eq_true, if_false] at hok
    cases r2 with
    | none => cases hok
    | some rep2 =>
      cases r3 with
      | none => simp at hok
      | some rep3 =>
        cases r4 with
        | none => simp at hok
        | some text =>
          simp only at hok
          cases hok
          have h1 := root_agent_keeps_clarification rep2 (clarifying_agent r1 s)
          have h2 := itinerary_agent_keeps_clarification rep3 fb
            (root_agent rep2 (clarifying_agent r1 s))
          have h3 := response_agent_keeps_clarification text
            (itinerary_agent rep3 fb (root_agent rep2 (clarifying_agent r1 s)))
          constructor
          · intro hfs
            rw [h3.1, h2.1, h1.1, hcn] at hfs
            cases hfs
          · intro hfs
            exact absurd (by rw [h3.2, h2.2, h1.2, hqe]) hfs

/-- Witness for C5's amended theorem at concrete inputs: a fresh state with
no pending questions, a parsed reply requesting clarification with one
question; the clarify exit returns a state where the flag and the question
list agree. -/
theorem clarification_invariant_conditional_witness :
    ((clarifying_agent (ClarifyReply.parsed true (some ["Q1"]) none none)
        (fresh_state "plan a trip" "s1")).clarification_needed = true ↔
      (clarifying_agent (ClarifyReply.parsed true (some ["Q1"]) none none)
        (fresh_state "plan a trip" "s1")).clarification_questions ≠ []) :=
  clarification_invariant_conditional
    (ClarifyReply.parsed true (some ["Q1"]) none none) none none none
    (fun _ => []) (fresh_state "plan a trip" "s1")
    (clarifying_agent (ClarifyReply.parsed true (some ["Q1"]) none none)
      (fresh_state "plan a trip" "s1"))
    rfl
    (by intro cn qs prefs msg h hcn; cases h; simp)
    rfl

/-- C2: for a session whose previous turn was persisted with
`clarification_needed = true` and non-empty `clarification_questions`, the
next `process_request` call reloads that stored state: the initial state it
builds carries the prior `trip_preferences` and `clarification_questions`,
gets the new `user_input` and the appended user message, is not the fresh
empty state, and the turn is exactly the workflow run on that state — whose
entry node is the Clarify stage. -/
theorem resume_reenters_clarify (r1 : ClarifyReply) (r2 : Option RootReply)
    (r3 : Option ItinReply) (r4 : Option String) (fb : PyDict → PyDict)
    (sessions : String → Option TravelPlannerState)
    (prev : TravelPlannerState) (user_input session_id : String)
    (hprev : sessions session_id = some prev)
    (hclar : prev.clarification_needed = true)
    (hq : prev.clarification_questions ≠ []) :
    (initial_state_for sessions none user_input session_id).trip_preferences =
      prev.trip_preferences ∧
    (initial_state_for sessions none user_input session_id).clarification_questions =
      prev.clarification_questions ∧
    (initial_state_for sessions none user_input session_id).user_input = user_input ∧
    (initial_state_for sessions none user_input session_id).conversation_history =
      prev.conversation_history ++ ["User: " ++ user_input] ∧
    initial_state_for sessions none user_input session_id ≠
      fresh_state user_input session_id ∧
    (process_request (some r1) r2 r3 r4 fb sessions none user_input session_id).1 =
      turn_to_result (workflow_invoke (some r1) r2 r3 r4 fb
        (initial_state_for sessions none user_input session_id)) ∧
    workflow_invoke (some r1) r2 r3 r4 fb
        (initial_state_for sessions none user_input session_id) =
      workflow_after_clarify r2 r3 r4 fb
        (clarifying_agent r1 (initial_state_for sessions none user_input session_id)) := by
  refine ⟨?_, ?_, ?_, ?_, ?_, ?_, rfl⟩
  · simp [initial_state_for, hprev]
  · simp [initial_state_for, hprev]
  · simp [initial_state_for, hprev]
  · simp [initial_state_for, hprev]
  · intro h
    have h2 := congrArg TravelPlannerState.clarification_needed h
    simp [initial_state_for, hprev, fresh_state, hclar] at h2
  · unfold process_request
    cases hout : workflow_invoke (some r1) r2 r3 r4 fb
        (initial_state_for sessions none user_input session_id) <;>
      simp [hout, turn_to_result]

/-- Concrete stored state for the C2 witness and the C1 code-bug theorem: a
session suspended at the clarification exit. -/
def prev_suspended : TravelPlannerState :=
  { user_input := "hi"
    session_id := "s1"
    clarification_needed := true
    clarification_questions := ["Q1"]
    trip_preferences := [("destination", PyVal.pystr "Tokyo")]
    itinerary_toc := []
    success_criteria := []
    data_quality_requirements := []
    itinerary := []
    final_response := "I need more information to plan your trip."
    conversation_history := ["User: hi", "User: hi"] }

/-- The stored session map holding `prev_suspended` under `"s1"`. -/
def suspended_sessions : String → Option TravelPlannerState :=
  fun sid => if sid = "s1" then some prev_suspended else none

/-- Witness for C2 at concrete inputs: the suspended session `"s1"` resumed
with input `"answer"`. -/
theorem resume_reenters_clarify_witness :
    (initial_state_for suspended_sessions none "answer" "s1").trip_preferences =
      prev_suspended.trip_preferences ∧
    (initial_state_for suspended_sessions none "answer" "s1").clarification_questions =
      prev_suspended.clarification_questions ∧
    (initial_state_for suspended_sessions none "answer" "s1").user_input = "answer" ∧
    (initial_state_for suspended_sessions none "answer" "s1").conversation_history =
      prev_suspended.conversation_history ++ ["User: " ++ "answer"] ∧
    initial_state_for suspended_sessions none "answer" "s1" ≠
      fresh_state "answer" "s1" ∧
    (process_request (some (ClarifyReply.parsed false none none none))
        (some (RootReply.unparsed "x")) (some (ItinReply.unparsed "x"))
        (some "done") (fun _ => []) suspended_sessions none "answer" "s1").1 =
      turn_to_result (workflow_invoke (some (ClarifyReply.parsed false none none none))
        (some (RootReply.unparsed "x")) (some (ItinReply.unparsed "x"))
        (some "done") (fun _ => [])
        (initial_state_for suspended_sessions none "answer" "s1")) ∧
    workflow_invoke (some (ClarifyReply.parsed false none none none))
        (some (RootReply.unparsed "x")) (some (ItinReply.unparsed "x"))
        (some "done") (fun _ => [])
        (initial_state_for suspended_sessions none "answer" "s1") =
      workflow_after_clarify (some (RootReply.unparsed "x"))
        (some (ItinReply.unparsed "x")) (some "done") (fun _ => [])
        (clarifying_agent (ClarifyReply.parsed false none none none)
          (initial_state_for suspended_sessions none "answer" "s1")) :=
  resume_reenters_clarify (ClarifyReply.parsed false none none none)
    (some (RootReply.unparsed "x")) (some (ItinReply.unparsed "x"))
    (some "done") (fun _ => []) suspended_sessions prev_suspended
    "answer" "s1" rfl rfl (by decide)

/-- C1 (code bug): with `prev_suspended` persisted for session `"s1"`, a
turn whose very first collaborator call raises `Unavailable` makes
`process_request` return the error dictionary without assigning
`session_states[session_id]` — yet the state retrievable via
`get_session_state` is NOT the state persisted before the turn: its
`conversation_history` already contains the failed turn's `"User: answer"`
entry, because `initial_state = stored.copy()` is a shallow copy sharing the
history list, which is appended to before the pipeline runs. -/
theorem fatal_error_mutates_stored_history :
    (process_request none none none none (fun _ => []) suspended_sessions
        none "answer" "s1").1 = ProcessResult.error ∧
    get_session_state (process_request none none none none (fun _ => [])
        suspended_sessions none "answer" "s1").2 "s1" =
      some { prev_suspended with
               conversation_history := ["User: hi", "User: hi", "User: answer"] } ∧
    get_session_state (process_request none none none none (fun _ => [])
        suspended_sessions none "answer" "s1").2 "s1" ≠ some prev_suspended := by
  have key : (some { prev_suspended with
      conversation_history := ["User: hi", "User: hi", "User: answer"] } :
        Option TravelPlannerState) ≠ some prev_suspended := by
    intro h
    have h2 := congrArg (fun o => Option.map TravelPlannerState.conversation_history o) h
    simp [prev_suspended] at h2
  exact ⟨rfl, rfl, fun h => key h⟩
